import Mathlib

/-!
Shallow embedding of `arthur/jobs.py` from grimoirelab-kingarthur.

The module wraps Perceval backends as RQ jobs: `JobResult` stores the
outcome of a job, `PercevalJob` runs a backend and pushes each fetched
item (annotated with metadata) onto a Redis list, and
`execute_perceval_job` is the entry function invoked by the RQ worker.

Modelling conventions:
- Python dictionaries are association lists with insert-or-overwrite
  assignment (`assoc_set`) and left-to-right key lookup (`alookup`).
- Python exceptions become the inductive `Exc`; `raise` becomes an
  `Option Exc` outcome or an `Except Exc` return value.
  Spec names map as: NotFound = `Exc.notFound` (NotFoundError),
  InvalidArgument = `Exc.valueError` (ValueError),
  UnsupportedOperation = `Exc.attrError` (AttributeError),
  BackendFailure = any other exception (`Exc.backendError`).
- `datetime` values carry only their epoch; `.timestamp()` reads it.
- A Perceval `BackendItemsGenerator` is modelled by the construction
  inputs it stores plus its observable behaviour for one run: the items
  it yields in order, the exception (if any) it raises after those
  items, and the summary object it exposes afterwards.  The behaviour
  is supplied by the backend class (`BackendClass.fetch`), which is the
  external collaborator.
- `pickle.dumps` followed by the matching load is a round trip, so the
  Redis queue is modelled as the list of (deserialised) items pushed.
- The mutable state touched by the code (the job object, the Redis
  queue, the RQ job metadata) is passed and returned explicitly.
-/

namespace Arthur

/-- Values stored in item dictionaries and backend arguments. -/
inductive Value where
  | str (s : String)
  | num (n : Int)
  | vbool (b : Bool)
  | vnone
deriving DecidableEq, Repr

/-- A Perceval item: a Python dictionary from field names to values. -/
abbrev Item := List (String × Value)

/-- Backend arguments: an opaque dictionary (`backend_args`). -/
abbrev BackendArgs := List (String × Value)

/-- Association-list lookup, first binding wins (Python dict read). -/
def alookup {α : Type} : List (String × α) → String → Option α
  | [], _ => none
  | (k', v) :: rest, k => if k' = k then some v else alookup rest k

/-- Python dict assignment `d[k] = v`: overwrite the existing binding in
place, or append a new binding at the end. -/
def assoc_set {α : Type} : List (String × α) → String → α → List (String × α)
  | [], k, v => [(k, v)]
  | (k', v') :: rest, k, v =>
      if k' = k then (k, v) :: rest else (k', v') :: assoc_set rest k v

/-- Python exceptions raised by the code or its collaborators. -/
inductive Exc where
  | notFound (element : String)
  | valueError (msg : String)
  | attrError (msg : String)
  | backendError (msg : String)
deriving DecidableEq, Repr

/-- True exactly for `AttributeError` (the kind the entry function
singles out with its first `except` clause). -/
def Exc.is_attr_error : Exc → Bool
  | .attrError _ => true
  | _ => false

/-- A datetime, carrying only its epoch value. -/
structure Datetime where
  epoch : Int
deriving DecidableEq, Repr

/-- Model of `datetime.timestamp()`: the numeric epoch value. -/
def Datetime.timestamp (d : Datetime) : Int := d.epoch

/-- A Perceval fetch summary, as exposed by a backend items generator. -/
structure Summary where
  fetched : Nat
  skipped : Nat
  min_updated_on : Datetime
  max_updated_on : Datetime
  last_updated_on : Datetime
  last_uuid : String
  min_offset : Value
  max_offset : Value
  last_offset : Value
  extras : List (String × Value)
deriving DecidableEq, Repr

/-- Values appearing in the dictionary built by `JobResult.to_dict`:
either a plain value or a nested dictionary (the `extras` mapping). -/
inductive DVal where
  | v (x : Value)
  | vmap (m : List (String × Value))
deriving DecidableEq, Repr

/-- Model of `arthur._version.__version__` (the file itself is not part
of `jobs.py`; only its value as an opaque version string matters). -/
def arthur_version : String := "0.1.18"

/-- `JobResult`: the result of a Perceval job (jobs.py lines 40-79). -/
structure JobResult where
  job_id : String
  task_id : String
  backend : String
  category : String
  summary : Option Summary
deriving DecidableEq, Repr

/-- `JobResult.to_dict` (jobs.py lines 59-79): a dict holding `job_id`
and `task_id`, extended with the summary statistics when a summary is
present.  Note the code never writes `backend` or `category` entries. -/
def JobResult.to_dict (r : JobResult) : List (String × DVal) :=
  let result : List (String × DVal) :=
    [("job_id", .v (.str r.job_id)), ("task_id", .v (.str r.task_id))]
  match r.summary with
  | none => result
  | some s => result ++
      [("fetched", .v (.num s.fetched)),
       ("skipped", .v (.num s.skipped)),
       ("min_updated_on", .v (.num s.min_updated_on.timestamp)),
       ("max_updated_on", .v (.num s.max_updated_on.timestamp)),
       ("last_updated_on", .v (.num s.last_updated_on.timestamp)),
       ("last_uuid", .v (.str s.last_uuid)),
       ("min_offset", .v s.min_offset),
       ("max_offset", .v s.max_offset),
       ("last_offset", .v s.last_offset),
       ("extras", .vmap s.extras)]

/-- A `perceval.archive.ArchiveManager`, identified by its path. -/
structure ArchiveManager where
  dirpath : String
deriving DecidableEq, Repr

/-- Observable behaviour of one backend items generator run: the items
yielded in order, the exception raised after yielding them (if any),
and the summary the generator exposes once iteration has stopped. -/
structure GenBehavior where
  items : List Item
  failure : Option Exc
  summary : Option Summary
deriving DecidableEq, Repr

/-- A Perceval backend class: its capability flags and, as the external
collaborator, the behaviour of the items generator it drives, as a
function of the construction arguments. -/
structure BackendClass where
  archiving : Bool
  resuming : Bool
  fetch : BackendArgs → String → Option ArchiveManager → Bool → Option Int → GenBehavior

/-- A `perceval.backend.BackendItemsGenerator` as held by a job: the
construction inputs it stores plus its behaviour for this run. -/
structure BackendItemsGenerator where
  manager : Option ArchiveManager
  fetch_archive : Bool
  archived_after : Option Int
  items : List Item
  failure : Option Exc
  summary : Option Summary

/-- Archive arguments (`archive_args`): a dict with keys `archive_path`
and `fetch_from_archive`, and optionally `archived_after`. -/
structure ArchiveArgs where
  archive_path : String
  fetch_from_archive : Bool
  archived_after : Option Int
deriving DecidableEq, Repr

/-- The mutable state of a `PercevalJob` instance (jobs.py lines
82-211).  The Redis connection is modelled outside the job, as the
queue contents threaded through `run`. -/
structure PercevalJob where
  bklass : BackendClass
  job_id : String
  task_id : String
  backend : String
  qitems : String
  archive_manager : Option ArchiveManager
  category : String
  _big : Option BackendItemsGenerator
  _result : JobResult

/-- The backend registry produced by `perceval.backend.find_backends`:
a mapping from backend names to backend classes. -/
abbrev Registry := List (String × BackendClass)

/-- `PercevalJob.__init__` (jobs.py lines 99-115): look the backend up
in the registry, raising `NotFoundError` when it is absent, and set up
the initial state with an empty result. -/
def percevalJobInit (reg : Registry) (job_id task_id backend category qitems : String) :
    Except Exc PercevalJob :=
  match alookup reg backend with
  | none => .error (.notFound backend)
  | some bk =>
      .ok { bklass := bk
            job_id := job_id
            task_id := task_id
            backend := backend
            qitems := qitems
            archive_manager := none
            category := category
            _big := none
            _result := { job_id := job_id, task_id := task_id,
                         backend := backend, category := category,
                         summary := none } }

/-- The `result` property (jobs.py lines 117-121): if the stored result
has no summary yet but the items generator exists and has one, adopt
the generator summary; then return the stored result. -/
def PercevalJob.result (j : PercevalJob) : JobResult :=
  match j._result.summary, j._big with
  | none, some g =>
      match g.summary with
      | some s => { j._result with summary := some s }
      | none => j._result
  | _, _ => j._result

/-- `PercevalJob.initialize_archive_manager` (jobs.py lines 123-132):
raise `ValueError` on the empty string, otherwise create an
`ArchiveManager` for the path when the path is truthy. -/
def PercevalJob.init_archive_manager (j : PercevalJob) (archive_path : String) :
    Except Exc PercevalJob :=
  if archive_path = "" then
    .error (.valueError "Archive manager path cannot be empty")
  else if archive_path.isEmpty then
    .ok j
  else
    .ok { j with archive_manager := some ⟨archive_path⟩ }

/-- `PercevalJob.has_archiving` (jobs.py lines 165-168). -/
def PercevalJob.has_archiving (j : PercevalJob) : Bool := j.bklass.archiving

/-- `PercevalJob.has_resuming` (jobs.py lines 170-173). -/
def PercevalJob.has_resuming (j : PercevalJob) : Bool := j.bklass.resuming

/-- `PercevalJob._create_items_generator` (jobs.py lines 175-199):
`fetch_archive` is the `fetch_from_archive` flag when archive
arguments are given and false otherwise; `archived_after` is read only
when fetching from the archive; the stored archive manager is always
passed along. -/
def PercevalJob._create_items_generator (j : PercevalJob) (backend_args : BackendArgs)
    (archive_args : Option ArchiveArgs) : BackendItemsGenerator :=
  let fetch_archive : Bool :=
    match archive_args with
    | some a => a.fetch_from_archive
    | none => false
  let archived_after : Option Int :=
    if fetch_archive then
      match archive_args with
      | some a => a.archived_after
      | none => none
    else none
  let beh := j.bklass.fetch backend_args j.category j.archive_manager
      fetch_archive archived_after
  { manager := j.archive_manager
    fetch_archive := fetch_archive
    archived_after := archived_after
    items := beh.items
    failure := beh.failure
    summary := beh.summary }

/-- `PercevalJob._metadata` (jobs.py lines 201-211): write the system
version under `arthur_version` and the job identifier under `job_id`
into the item dictionary. -/
def PercevalJob._metadata (j : PercevalJob) (item : Item) : Item :=
  assoc_set (assoc_set item "arthur_version" (.str arthur_version)) "job_id" (.str j.job_id)

/-- Outcome of `PercevalJob.run`: the job state after the call, the
Redis queue contents after the call, and the exception raised by the
call, if any. -/
structure RunResult where
  job : PercevalJob
  queue : List Item
  err : Option Exc

/-- `PercevalJob.run` (jobs.py lines 134-163): copy the backend
arguments, initialise the archive manager when archive arguments are
given, reset the stored result, create a fresh items generator, then
push each produced item, with metadata added, onto the queue.  An
exception from the archive initialisation leaves the job untouched; an
exception from the item loop is raised after the items already
produced were pushed. -/
def PercevalJob.run (j : PercevalJob) (queue : List Item) (backend_args : BackendArgs)
    (archive_args : Option ArchiveArgs) : RunResult :=
  let args := backend_args
  let step : Except Exc PercevalJob :=
    match archive_args with
    | some a => j.init_archive_manager a.archive_path
    | none => .ok j
  match step with
  | .error e => { job := j, queue := queue, err := some e }
  | .ok j1 =>
      let j2 : PercevalJob :=
        { j1 with _result := { job_id := j1.job_id, task_id := j1.task_id,
                               backend := j1.backend, category := j1.category,
                               summary := none } }
      let g := j2._create_items_generator args archive_args
      let j3 : PercevalJob := { j2 with _big := some g }
      { job := j3
        queue := queue ++ g.items.map j3._metadata
        err := g.failure }

/-- The RQ job surrounding an execution: its identifier, its in-memory
metadata dict, and the metadata persisted by `save_meta`. -/
structure RqJob where
  id : String
  meta : List (String × JobResult)
  saved_meta : List (String × JobResult)
deriving DecidableEq, Repr

/-- Outcome of `execute_perceval_job`: the returned result or raised
exception, the RQ job state afterwards, and the queue afterwards. -/
structure ExecResult where
  res : Except Exc JobResult
  rq : RqJob
  queue : List Item
deriving Repr

/-- `execute_perceval_job` (jobs.py lines 214-271): build the job
(raising `NotFoundError` for unknown backends), raise `AttributeError`
when archive arguments are set but the backend lacks archiving, then
run.  On an `AttributeError` from the run, re-raise it unchanged; on
any other exception, store the current job result under the key
`result` in the RQ job metadata, persist the metadata, and re-raise. -/
def execute_perceval_job (reg : Registry) (rq_job : RqJob) (queue : List Item)
    (backend : String) (backend_args : BackendArgs) (qitems task_id category : String)
    (archive_args : Option ArchiveArgs) : ExecResult :=
  match percevalJobInit reg rq_job.id task_id backend category qitems with
  | .error e => { res := .error e, rq := rq_job, queue := queue }
  | .ok job =>
      if !job.has_archiving && archive_args.isSome then
        { res := .error (.attrError "archive attributes set but archive is not supported")
          rq := rq_job
          queue := queue }
      else
        let r := job.run queue backend_args archive_args
        match r.err with
        | none => { res := .ok r.job.result, rq := rq_job, queue := r.queue }
        | some e =>
            if e.is_attr_error then
              { res := .error e, rq := rq_job, queue := r.queue }
            else
              let meta' := assoc_set rq_job.meta "result" r.job.result
              { res := .error e
                rq := { rq_job with meta := meta', saved_meta := meta' }
                queue := r.queue }

/-! ### Concrete instances used by witnesses and counterexamples

A small collection of backend classes, jobs and run inputs on which
the theorems below are instantiated.  They exercise the interesting
paths: a backend that succeeds, one that fails mid-stream with a
generic error, and one that fails mid-stream with `AttributeError`. -/

/-- A concrete fetch summary used by the demo backends. -/
def demoSummary : Summary :=
  { fetched := 2
    skipped := 0
    min_updated_on := ⟨100⟩
    max_updated_on := ⟨200⟩
    last_updated_on := ⟨200⟩
    last_uuid := "uuid-2"
    min_offset := .num 1
    max_offset := .num 2
    last_offset := .num 2
    extras := [("origin", .str "demo")] }

/-- Two concrete items, as produced by the demo backends. -/
def demoItems : List Item :=
  [[("uuid", .str "uuid-1"), ("data", .num 1)],
   [("uuid", .str "uuid-2"), ("data", .num 2)]]

/-- A backend that yields two items and finishes with a summary. -/
def demoBackendOk : BackendClass :=
  { archiving := true
    resuming := true
    fetch := fun _ _ _ _ _ =>
      { items := demoItems, failure := none, summary := some demoSummary } }

/-- A backend whose generator raises a generic error after one item,
with no summary populated yet. -/
def demoBackendBoom : BackendClass :=
  { archiving := true
    resuming := false
    fetch := fun _ _ _ _ _ =>
      { items := demoItems.take 1, failure := some (.backendError "boom"),
        summary := none } }

/-- A backend whose generator raises `AttributeError` after one item. -/
def demoBackendAttr : BackendClass :=
  { archiving := true
    resuming := false
    fetch := fun _ _ _ _ _ =>
      { items := demoItems.take 1, failure := some (.attrError "mid-run attr"),
        summary := none } }

/-- A backend without archiving support. -/
def demoBackendNoArchive : BackendClass :=
  { archiving := false
    resuming := false
    fetch := fun _ _ _ _ _ =>
      { items := demoItems, failure := none, summary := some demoSummary } }

/-- The demo backend registry. -/
def demoRegistry : Registry :=
  [("git", demoBackendOk), ("boom", demoBackendBoom),
   ("attr", demoBackendAttr), ("noarch", demoBackendNoArchive)]

/-- A fresh RQ job with empty metadata. -/
def demoRqJob : RqJob := { id := "job-1", meta := [], saved_meta := [] }

/-- Demo backend arguments. -/
def demoArgs : BackendArgs := [("uri", .str "http://example.com/repo.git")]

/-- Demo archive arguments with a valid path and no replay. -/
def demoArchiveArgs : ArchiveArgs :=
  { archive_path := "/tmp/archive", fetch_from_archive := false, archived_after := none }

/-- Demo archive arguments requesting replay from the archive. -/
def demoArchiveArgsFetch : ArchiveArgs :=
  { archive_path := "/tmp/archive", fetch_from_archive := true, archived_after := some 42 }

/-- The job built by `percevalJobInit` on the demo registry for the
backend named `git`. -/
def demoJob : PercevalJob :=
  { bklass := demoBackendOk
    job_id := "job-1"
    task_id := "task-1"
    backend := "git"
    qitems := "items"
    archive_manager := none
    category := "commit"
    _big := none
    _result := { job_id := "job-1", task_id := "task-1", backend := "git",
                 category := "commit", summary := none } }

/-- The job built by `percevalJobInit` on the demo registry for the
backend named `boom`. -/
def demoJobBoom : PercevalJob :=
  { bklass := demoBackendBoom
    job_id := "job-1"
    task_id := "task-1"
    backend := "boom"
    qitems := "items"
    archive_manager := none
    category := "commit"
    _big := none
    _result := { job_id := "job-1", task_id := "task-1", backend := "boom",
                 category := "commit", summary := none } }

/-- The job built by `percevalJobInit` on the demo registry for the
backend named `noarch`. -/
def demoJobNoArch : PercevalJob :=
  { bklass := demoBackendNoArchive
    job_id := "job-1"
    task_id := "task-1"
    backend := "noarch"
    qitems := "items"
    archive_manager := none
    category := "commit"
    _big := none
    _result := { job_id := "job-1", task_id := "task-1", backend := "noarch",
                 category := "commit", summary := none } }

/-- The job result persisted by the failing demo run of the backend
named `boom` (its generator has no summary, so none is adopted). -/
def demoBoomResult : JobResult :=
  { job_id := "job-1", task_id := "task-1", backend := "boom",
    category := "commit", summary := none }

/-- A job result that carries the demo summary. -/
def demoSummaryResult : JobResult :=
  { job_id := "j", task_id := "t", backend := "b", category := "c",
    summary := some demoSummary }

/-- Demo archive arguments with an empty path (invalid input). -/
def demoArchiveArgsEmpty : ArchiveArgs :=
  { archive_path := "", fetch_from_archive := false, archived_after := none }

/-- The items generator created by a demo run of the backend named
`git` without archive arguments. -/
def demoGen : BackendItemsGenerator :=
  { manager := none
    fetch_archive := false
    archived_after := none
    items := demoItems
    failure := none
    summary := some demoSummary }

/-! ### Dictionary and archive-manager lemmas -/

theorem alookup_assoc_set_self {α : Type} (m : List (String × α)) (k : String) (v : α) :
    alookup (assoc_set m k v) k = some v := by
  induction m with
  | nil => simp [assoc_set, alookup]
  | cons p rest ih =>
      obtain ⟨k', v'⟩ := p
      by_cases h : k' = k
      · simp [assoc_set, h, alookup]
      · simp [assoc_set, h, alookup, ih]

theorem alookup_assoc_set_of_ne {α : Type} (m : List (String × α)) (k k2 : String) (v : α)
    (h : k2 ≠ k) : alookup (assoc_set m k v) k2 = alookup m k2 := by
  have hne : ¬ (k = k2) := fun hh => h hh.symm
  induction m with
  | nil => simp [assoc_set, alookup, hne]
  | cons p rest ih =>
      obtain ⟨k', v'⟩ := p
      by_cases hk : k' = k
      · subst hk
        simp [assoc_set, alookup, hne]
      · simp [assoc_set, hk, alookup, ih]

/-- Helper: initialising the archive manager on a non-empty path
creates the binding. -/
theorem init_archive_manager_ok (j : PercevalJob) (location : String) (h : location ≠ "") :
    j.init_archive_manager location = .ok { j with archive_manager := some ⟨location⟩ } := by
  have he : location.isEmpty = false := by
    rcases hb : location.isEmpty with _ | _
    · rfl
    · exact absurd (String.isEmpty_iff location |>.mp hb) h
  simp [PercevalJob.init_archive_manager, h, he]

/-- Helper: initialising the archive manager on the empty path raises
`ValueError`. -/
theorem init_archive_manager_empty (j : PercevalJob) :
    j.init_archive_manager "" = .error (.valueError "Archive manager path cannot be empty") := by
  simp [PercevalJob.init_archive_manager]

/-- Helper: after `_metadata`, the item holds the version and the job
identifier under the two well-known keys. -/
theorem metadata_lookup_fields (j : PercevalJob) (item : Item) :
    alookup (j._metadata item) "arthur_version" = some (.str arthur_version) ∧
    alookup (j._metadata item) "job_id" = some (.str j.job_id) := by
  unfold PercevalJob._metadata
  constructor
  · rw [alookup_assoc_set_of_ne _ _ _ _ (by decide), alookup_assoc_set_self]
  · rw [alookup_assoc_set_self]

/-- Helper: the dictionary built by `to_dict` always holds `job_id`
and `task_id` and never holds `backend` or `category`. -/
theorem to_dict_base_fields (r : JobResult) :
    alookup r.to_dict "job_id" = some (.v (.str r.job_id)) ∧
    alookup r.to_dict "task_id" = some (.v (.str r.task_id)) ∧
    alookup r.to_dict "backend" = none ∧
    alookup r.to_dict "category" = none := by
  cases hs : r.summary <;> simp [JobResult.to_dict, hs, alookup]

/-- Helper: with a summary present, the dictionary built by `to_dict`
holds the ten statistics fields, the timestamps as epoch numbers. -/
theorem to_dict_summary_fields (r : JobResult) (s : Summary) (hs : r.summary = some s) :
    alookup r.to_dict "fetched" = some (.v (.num s.fetched)) ∧
    alookup r.to_dict "skipped" = some (.v (.num s.skipped)) ∧
    alookup r.to_dict "min_updated_on" = some (.v (.num s.min_updated_on.timestamp)) ∧
    alookup r.to_dict "max_updated_on" = some (.v (.num s.max_updated_on.timestamp)) ∧
    alookup r.to_dict "last_updated_on" = some (.v (.num s.last_updated_on.timestamp)) ∧
    alookup r.to_dict "last_uuid" = some (.v (.str s.last_uuid)) ∧
    alookup r.to_dict "min_offset" = some (.v s.min_offset) ∧
    alookup r.to_dict "max_offset" = some (.v s.max_offset) ∧
    alookup r.to_dict "last_offset" = some (.v s.last_offset) ∧
    alookup r.to_dict "extras" = some (.vmap s.extras) := by
  simp [JobResult.to_dict, hs, alookup]

/-! ### Claims -/

/-- C10: `_metadata` writes the system version under `arthur_version`
and the job identifier under `job_id` into the item, overwriting any
pre-existing values under those names, and leaves every other field of
the item unchanged. -/
theorem metadata_sets_fields_and_frames (j : PercevalJob) (item : Item) (k : String)
    (h1 : k ≠ "arthur_version") (h2 : k ≠ "job_id") :
    alookup (j._metadata item) "arthur_version" = some (.str arthur_version) ∧
    alookup (j._metadata item) "job_id" = some (.str j.job_id) ∧
    alookup (j._metadata item) k = alookup item k := by
  unfold PercevalJob._metadata
  refine ⟨?_, ?_, ?_⟩
  · rw [alookup_assoc_set_of_ne _ _ _ _ (by decide), alookup_assoc_set_self]
  · rw [alookup_assoc_set_self]
  · rw [alookup_assoc_set_of_ne _ _ _ _ h2, alookup_assoc_set_of_ne _ _ _ _ h1]

/-- Witness for C10, on an item that already carries a `job_id` field
(showing the overwrite) and an unrelated field named `extra`. -/
theorem metadata_sets_fields_and_frames_witness :
    ("extra" : String) ≠ "arthur_version" ∧ ("extra" : String) ≠ "job_id" ∧
    (alookup (demoJob._metadata [("job_id", .str "old"), ("extra", .num 5)])
        "arthur_version" = some (.str arthur_version) ∧
     alookup (demoJob._metadata [("job_id", .str "old"), ("extra", .num 5)])
        "job_id" = some (.str demoJob.job_id) ∧
     alookup (demoJob._metadata [("job_id", .str "old"), ("extra", .num 5)])
        "extra" = alookup [("job_id", .str "old"), ("extra", .num 5)] "extra") :=
  ⟨by decide, by decide,
   metadata_sets_fields_and_frames demoJob
     [("job_id", .str "old"), ("extra", .num 5)] "extra" (by decide) (by decide)⟩

/-- C8: initialising the archive manager with the empty string fails
with `ValueError` and creates no binding, while any non-empty location
creates an archive manager bound to that location. -/
theorem init_archive_manager_spec (j : PercevalJob) (location : String) :
    (location = "" →
      j.init_archive_manager location =
        .error (.valueError "Archive manager path cannot be empty")) ∧
    (location ≠ "" →
      j.init_archive_manager location =
        .ok { j with archive_manager := some ⟨location⟩ }) := by
  constructor
  · intro h
    subst h
    exact init_archive_manager_empty j
  · intro h
    exact init_archive_manager_ok j location h

/-- Witness for C8: the empty string fails on the demo job, and the
location `/tmp/archive` creates a binding for `/tmp/archive`. -/
theorem init_archive_manager_spec_witness :
    (demoJob.init_archive_manager "" =
      .error (.valueError "Archive manager path cannot be empty")) ∧
    (demoJob.init_archive_manager "/tmp/archive" =
      .ok { demoJob with archive_manager := some ⟨"/tmp/archive"⟩ }) :=
  ⟨(init_archive_manager_spec demoJob "").1 rfl,
   (init_archive_manager_spec demoJob "/tmp/archive").2 (by decide)⟩

/-- C9: resolving a backend name absent from the registry fails with
`NotFoundError`; the RQ job metadata and the output queue are
unchanged, so no item stream was created and nothing was pushed. -/
theorem unknown_backend_not_found (reg : Registry) (rq_job : RqJob) (queue : List Item)
    (backend : String) (backend_args : BackendArgs) (qitems task_id category : String)
    (archive_args : Option ArchiveArgs)
    (h : alookup reg backend = none) :
    execute_perceval_job reg rq_job queue backend backend_args qitems task_id category
        archive_args =
      { res := .error (.notFound backend), rq := rq_job, queue := queue } := by
  simp [execute_perceval_job, percevalJobInit, h]

/-- Witness for C9: the name `svn` is not in the demo registry and the
entry function fails with `NotFoundError` leaving everything alone. -/
theorem unknown_backend_not_found_witness :
    alookup demoRegistry "svn" = none ∧
    execute_perceval_job demoRegistry demoRqJob [] "svn" demoArgs "items" "task-1" "commit"
        none =
      { res := .error (.notFound "svn"), rq := demoRqJob, queue := [] } :=
  ⟨rfl, unknown_backend_not_found demoRegistry demoRqJob [] "svn" demoArgs "items" "task-1"
    "commit" none rfl⟩

/-- C3: when the backend lacks archiving support and archive arguments
are supplied, the entry function fails with `AttributeError` before any
run: the queue receives no push and no metadata is persisted. -/
theorem no_archiving_rejected_before_run (reg : Registry) (rq_job : RqJob) (queue : List Item)
    (backend : String) (backend_args : BackendArgs) (qitems task_id category : String)
    (a : ArchiveArgs) (j : PercevalJob)
    (hj : percevalJobInit reg rq_job.id task_id backend category qitems = .ok j)
    (hno : j.has_archiving = false) :
    execute_perceval_job reg rq_job queue backend backend_args qitems task_id category
        (some a) =
      { res := .error (.attrError "archive attributes set but archive is not supported")
        rq := rq_job
        queue := queue } := by
  simp [execute_perceval_job, hj, hno]

/-- Witness for C3: the demo backend `noarch` with archive arguments
supplied. -/
theorem no_archiving_rejected_before_run_witness :
    percevalJobInit demoRegistry demoRqJob.id "task-1" "noarch" "commit" "items" =
      .ok demoJobNoArch ∧
    demoJobNoArch.has_archiving = false ∧
    execute_perceval_job demoRegistry demoRqJob [] "noarch" demoArgs "items" "task-1"
        "commit" (some demoArchiveArgs) =
      { res := .error (.attrError "archive attributes set but archive is not supported")
        rq := demoRqJob
        queue := [] } :=
  ⟨rfl, rfl, no_archiving_rejected_before_run demoRegistry demoRqJob [] "noarch" demoArgs
    "items" "task-1" "commit" demoArchiveArgs demoJobNoArch rfl rfl⟩

/-- C1 counterexample: an `AttributeError` raised while the run is
producing items escapes `execute_perceval_job` without any write to
the RQ job metadata: the queue already received a push (the run was in
progress), the original error is re-raised, and both metadata dicts
are left empty.  So the error kind `AttributeError` is exempt from the
capture that the claim asserts for every error kind. -/
theorem run_attr_error_not_captured_cex :
    execute_perceval_job demoRegistry demoRqJob [] "attr" demoArgs "items" "task-1" "commit"
        none =
      { res := .error (.attrError "mid-run attr")
        rq := demoRqJob
        queue := [[("uuid", .str "uuid-1"), ("data", .num 1),
                   ("arthur_version", .str "0.1.18"), ("job_id", .str "job-1")]] } ∧
    demoRqJob.meta = [] ∧ demoRqJob.saved_meta = [] :=
  ⟨rfl, rfl, rfl⟩

/-- C1 (amended): for every exception raised during the run that is
not an `AttributeError`, the current job result is stored under the
key `result` in the RQ job metadata and persisted, and the original
exception is re-raised unchanged.  An `AttributeError` escaping the
run is re-raised without this capture. -/
theorem run_failure_persists_result_amended (reg : Registry) (rq_job : RqJob)
    (queue : List Item) (backend : String) (backend_args : BackendArgs)
    (qitems task_id category : String) (archive_args : Option ArchiveArgs)
    (j : PercevalJob) (e : Exc)
    (hj : percevalJobInit reg rq_job.id task_id backend category qitems = .ok j)
    (hguard : (!j.has_archiving && archive_args.isSome) = false)
    (herr : (j.run queue backend_args archive_args).err = some e)
    (hattr : e.is_attr_error = false) :
    execute_perceval_job reg rq_job queue backend backend_args qitems task_id category
        archive_args =
      { res := .error e
        rq := { rq_job with
                meta := assoc_set rq_job.meta "result"
                  ((j.run queue backend_args archive_args).job.result)
                saved_meta := assoc_set rq_job.meta "result"
                  ((j.run queue backend_args archive_args).job.result) }
        queue := (j.run queue backend_args archive_args).queue } := by
  simp [execute_perceval_job, hj, hguard, herr, hattr]

/-- Witness for C1 (amended): the demo backend `boom` raises a generic
error after one item; the partial result is persisted and the error is
re-raised. -/
theorem run_failure_persists_result_amended_witness :
    percevalJobInit demoRegistry demoRqJob.id "task-1" "boom" "commit" "items" =
      .ok demoJobBoom ∧
    (!demoJobBoom.has_archiving && (none : Option ArchiveArgs).isSome) = false ∧
    (demoJobBoom.run [] demoArgs none).err = some (.backendError "boom") ∧
    (Exc.backendError "boom").is_attr_error = false ∧
    execute_perceval_job demoRegistry demoRqJob [] "boom" demoArgs "items" "task-1" "commit"
        none =
      { res := .error (.backendError "boom")
        rq := { demoRqJob with
                meta := assoc_set demoRqJob.meta "result"
                  ((demoJobBoom.run [] demoArgs none).job.result)
                saved_meta := assoc_set demoRqJob.meta "result"
                  ((demoJobBoom.run [] demoArgs none).job.result) }
        queue := (demoJobBoom.run [] demoArgs none).queue } :=
  ⟨rfl, rfl, rfl, rfl,
   run_failure_persists_result_amended demoRegistry demoRqJob [] "boom" demoArgs "items"
     "task-1" "commit" none demoJobBoom (.backendError "boom") rfl rfl rfl rfl⟩

/-- C2 counterexample: a failed demo run persists a result whose
dictionary view holds neither a `backend` nor a `category` entry, and
a dictionary built from a result with a summary has exactly twelve
entries, among them three (not four) `updated_on` fields. -/
theorem persisted_mapping_shape_cex :
    alookup (execute_perceval_job demoRegistry demoRqJob [] "boom" demoArgs "items" "task-1"
        "commit" none).rq.saved_meta "result" = some demoBoomResult ∧
    alookup demoBoomResult.to_dict "backend" = none ∧
    alookup demoBoomResult.to_dict "category" = none ∧
    demoSummaryResult.to_dict =
      [("job_id", .v (.str "j")), ("task_id", .v (.str "t")),
       ("fetched", .v (.num 2)), ("skipped", .v (.num 0)),
       ("min_updated_on", .v (.num 100)), ("max_updated_on", .v (.num 200)),
       ("last_updated_on", .v (.num 200)), ("last_uuid", .v (.str "uuid-2")),
       ("min_offset", .v (.num 1)), ("max_offset", .v (.num 2)),
       ("last_offset", .v (.num 2)), ("extras", .vmap [("origin", .str "demo")])] :=
  ⟨rfl, rfl, rfl, rfl⟩

/-- C2 (amended): for every failed run in which the result is
persisted, the dictionary view of the persisted object holds `job_id`
and `task_id` (but neither `backend` nor `category`), and, whenever a
summary was captured, the ten statistics fields, with the three
`updated_on` fields as numeric epoch values. -/
theorem persisted_mapping_fields_amended (reg : Registry) (rq_job : RqJob)
    (queue : List Item) (backend : String) (backend_args : BackendArgs)
    (qitems task_id category : String) (archive_args : Option ArchiveArgs)
    (j : PercevalJob) (e : Exc) (jr : JobResult)
    (_hj : percevalJobInit reg rq_job.id task_id backend category qitems = .ok j)
    (_hguard : (!j.has_archiving && archive_args.isSome) = false)
    (_herr : (j.run queue backend_args archive_args).err = some e)
    (_hattr : e.is_attr_error = false)
    (_hpers : alookup (execute_perceval_job reg rq_job queue backend backend_args qitems
        task_id category archive_args).rq.saved_meta "result" = some jr) :
    alookup jr.to_dict "job_id" = some (.v (.str jr.job_id)) ∧
    alookup jr.to_dict "task_id" = some (.v (.str jr.task_id)) ∧
    alookup jr.to_dict "backend" = none ∧
    alookup jr.to_dict "category" = none ∧
    (∀ s, jr.summary = some s →
      alookup jr.to_dict "fetched" = some (.v (.num s.fetched)) ∧
      alookup jr.to_dict "skipped" = some (.v (.num s.skipped)) ∧
      alookup jr.to_dict "min_updated_on" = some (.v (.num s.min_updated_on.timestamp)) ∧
      alookup jr.to_dict "max_updated_on" = some (.v (.num s.max_updated_on.timestamp)) ∧
      alookup jr.to_dict "last_updated_on" = some (.v (.num s.last_updated_on.timestamp)) ∧
      alookup jr.to_dict "last_uuid" = some (.v (.str s.last_uuid)) ∧
      alookup jr.to_dict "min_offset" = some (.v s.min_offset) ∧
      alookup jr.to_dict "max_offset" = some (.v s.max_offset) ∧
      alookup jr.to_dict "last_offset" = some (.v s.last_offset) ∧
      alookup jr.to_dict "extras" = some (.vmap s.extras)) := by
  obtain ⟨h1, h2, h3, h4⟩ := to_dict_base_fields jr
  exact ⟨h1, h2, h3, h4, fun s hs => to_dict_summary_fields jr s hs⟩

/-- Witness for C2 (amended): the failing demo run of the backend
`boom` persists `demoBoomResult`; its dictionary view holds the base
fields and no summary block. -/
theorem persisted_mapping_fields_amended_witness :
    percevalJobInit demoRegistry demoRqJob.id "task-1" "boom" "commit" "items" =
      .ok demoJobBoom ∧
    (!demoJobBoom.has_archiving && (none : Option ArchiveArgs).isSome) = false ∧
    (demoJobBoom.run [] demoArgs none).err = some (.backendError "boom") ∧
    (Exc.backendError "boom").is_attr_error = false ∧
    alookup (execute_perceval_job demoRegistry demoRqJob [] "boom" demoArgs "items" "task-1"
        "commit" none).rq.saved_meta "result" = some demoBoomResult ∧
    alookup demoBoomResult.to_dict "job_id" = some (.v (.str demoBoomResult.job_id)) ∧
    alookup demoBoomResult.to_dict "backend" = none :=
  ⟨rfl, rfl, rfl, rfl, rfl,
   (persisted_mapping_fields_amended demoRegistry demoRqJob [] "boom" demoArgs "items"
     "task-1" "commit" none demoJobBoom (.backendError "boom") demoBoomResult
     rfl rfl rfl rfl rfl).1,
   (persisted_mapping_fields_amended demoRegistry demoRqJob [] "boom" demoArgs "items"
     "task-1" "commit" none demoJobBoom (.backendError "boom") demoBoomResult
     rfl rfl rfl rfl rfl).2.2.1⟩

/-- C4 counterexample: after a successful first run (summary
`demoSummary`), a second `run` call that fails while initialising the
archive manager (empty path) leaves the previous state in place, and
`result` after that failed second call still yields the first run
summary — statistics data exclusive to the first run. -/
theorem second_run_keeps_first_summary_cex :
    (demoJob.run [] demoArgs none).job.result.summary = some demoSummary ∧
    ((demoJob.run [] demoArgs none).job.run (demoJob.run [] demoArgs none).queue demoArgs
        (some demoArchiveArgsEmpty)).err =
      some (.valueError "Archive manager path cannot be empty") ∧
    ((demoJob.run [] demoArgs none).job.run (demoJob.run [] demoArgs none).queue demoArgs
        (some demoArchiveArgsEmpty)).job.result.summary = some demoSummary :=
  ⟨rfl, rfl, rfl⟩

/-- C4 (amended): a `run` call that does not fail while initialising
the archive manager (that is, whose archive path, if supplied, is not
the empty string) behaves identically whether or not the executor
still holds a previous run items generator and result: the previous
run state is discarded entirely.  A second call failing during archive
initialisation, by contrast, leaves the first run state readable. -/
theorem run_discards_previous_run_state_amended (j : PercevalJob) (queue : List Item)
    (backend_args : BackendArgs) (archive_args : Option ArchiveArgs)
    (h : ∀ a, archive_args = some a → a.archive_path ≠ "") :
    j.run queue backend_args archive_args =
      PercevalJob.run
        { j with _big := none
                 _result := { job_id := j.job_id, task_id := j.task_id,
                              backend := j.backend, category := j.category,
                              summary := none } }
        queue backend_args archive_args := by
  cases archive_args with
  | none => rfl
  | some a =>
      have hne : a.archive_path ≠ "" := h a rfl
      simp only [PercevalJob.run, init_archive_manager_ok _ a.archive_path hne]
      rfl

/-- Witness for C4 (amended): the demo job with a valid archive path. -/
theorem run_discards_previous_run_state_amended_witness :
    (∀ a, some demoArchiveArgs = some a → a.archive_path ≠ "") ∧
    demoJob.run [] demoArgs (some demoArchiveArgs) =
      PercevalJob.run
        { demoJob with
            _big := none
            _result := { job_id := demoJob.job_id, task_id := demoJob.task_id,
                         backend := demoJob.backend, category := demoJob.category,
                         summary := none } }
        [] demoArgs (some demoArchiveArgs) :=
  ⟨by intro a ha; cases ha; decide,
   run_discards_previous_run_state_amended demoJob [] demoArgs (some demoArchiveArgs)
     (by intro a ha; cases ha; decide)⟩

/-- C5 counterexample: a first run initialises the archive manager for
`/tmp/archive`; a second run on the same executor with archive
arguments omitted constructs an items generator that still receives
that archive manager — the binding outlives the run that supplied it. -/
theorem omitted_archive_args_reuse_manager_cex :
    (demoJob.run [] demoArgs (some demoArchiveArgs)).job.archive_manager =
      some ⟨"/tmp/archive"⟩ ∧
    ((demoJob.run [] demoArgs (some demoArchiveArgs)).job.run
        (demoJob.run [] demoArgs (some demoArchiveArgs)).queue demoArgs none).job._big.map
      (fun g => g.manager) = some (some ⟨"/tmp/archive"⟩) :=
  ⟨rfl, rfl⟩

/-- C5 (amended): a `run` call with archive arguments omitted creates
no new archive binding and hands the items generator the archive
manager currently stored on the executor — which is none only when no
earlier run (or call) ever initialised one; an existing binding is
carried over. -/
theorem run_passes_stored_manager_when_omitted (j : PercevalJob) (queue : List Item)
    (backend_args : BackendArgs) :
    ((j.run queue backend_args none).job._big).map (fun g => g.manager) =
      some j.archive_manager ∧
    (j.run queue backend_args none).job.archive_manager = j.archive_manager :=
  ⟨rfl, rfl⟩

/-- C6: on a successful run the queue receives exactly the items the
stream produced, in production order, each carrying the system version
under `arthur_version` and the job identifier under `job_id`. -/
theorem successful_run_pushes_all_items (j : PercevalJob) (queue : List Item)
    (backend_args : BackendArgs) (archive_args : Option ArchiveArgs)
    (g : BackendItemsGenerator)
    (hg : (j.run queue backend_args archive_args).job._big = some g)
    (hok : (j.run queue backend_args archive_args).err = none) :
    (j.run queue backend_args archive_args).queue = queue ++ g.items.map j._metadata ∧
    ∀ it ∈ (j.run queue backend_args archive_args).queue.drop queue.length,
      alookup it "arthur_version" = some (.str arthur_version) ∧
      alookup it "job_id" = some (.str j.job_id) := by
  have hq : (j.run queue backend_args archive_args).queue =
      queue ++ g.items.map j._metadata := by
    cases archive_args with
    | none =>
        simp only [PercevalJob.run] at hg ⊢
        cases hg
        rfl
    | some a =>
        by_cases hp : a.archive_path = ""
        · simp [PercevalJob.run, hp, init_archive_manager_empty] at hok
        · simp only [PercevalJob.run, init_archive_manager_ok _ a.archive_path hp] at hg ⊢
          cases hg
          rfl
  refine ⟨hq, ?_⟩
  intro it hit
  rw [hq, List.drop_left] at hit
  obtain ⟨x, _, rfl⟩ := List.mem_map.mp hit
  exact metadata_lookup_fields j x

/-- Witness for C6: the demo run of the backend named `git`. -/
theorem successful_run_pushes_all_items_witness :
    (demoJob.run [] demoArgs none).job._big = some demoGen ∧
    (demoJob.run [] demoArgs none).err = none ∧
    ((demoJob.run [] demoArgs none).queue = [] ++ demoGen.items.map demoJob._metadata ∧
     ∀ it ∈ (demoJob.run [] demoArgs none).queue.drop ([] : List Item).length,
       alookup it "arthur_version" = some (.str arthur_version) ∧
       alookup it "job_id" = some (.str demoJob.job_id)) :=
  ⟨rfl, rfl, successful_run_pushes_all_items demoJob [] demoArgs none demoGen rfl rfl⟩

/-- C7: whenever the run reaches stream construction, the items
generator receives the replay flag from the `fetch_from_archive` field
(false when archive arguments are absent) and the `archived_after`
bound only when that flag is true (none otherwise). -/
theorem stream_archive_flags_from_args (j : PercevalJob) (queue : List Item)
    (backend_args : BackendArgs) (archive_args : Option ArchiveArgs)
    (h : ∀ a, archive_args = some a → a.archive_path ≠ "") :
    ((j.run queue backend_args archive_args).job._big).map
        (fun g => (g.fetch_archive, g.archived_after)) =
      some (match archive_args with
            | some a => a.fetch_from_archive
            | none => false,
            match archive_args with
            | some a => if a.fetch_from_archive then a.archived_after else none
            | none => none) := by
  cases archive_args with
  | none => rfl
  | some a =>
      have hne : a.archive_path ≠ "" := h a rfl
      simp only [PercevalJob.run, init_archive_manager_ok _ a.archive_path hne,
        PercevalJob._create_items_generator]
      rfl

/-- Witness for C7: replay requested with a bound of 42; the stream is
constructed with the flag true and the bound passed through. -/
theorem stream_archive_flags_from_args_witness :
    (∀ a, some demoArchiveArgsFetch = some a → a.archive_path ≠ "") ∧
    ((demoJob.run [] demoArgs (some demoArchiveArgsFetch)).job._big).map
        (fun g => (g.fetch_archive, g.archived_after)) = some (true, some 42) :=
  ⟨by intro a ha; cases ha; decide,
   stream_archive_flags_from_args demoJob [] demoArgs (some demoArchiveArgsFetch)
     (by intro a ha; cases ha; decide)⟩

end Arthur
